import Mathlib

/-
Verification development for the Sentimate bilingual chatbot response engine
(src/chatbot.py and its secondary responder src/ai_chatbot.py).

The engine is embedded shallowly:
  - Python strings are modelled as Lean String / List Char (code-point lists,
    matching Python's code-point view of str).
  - Python dict literals (response tables, keyword tables) are association
    lists in source insertion order; Python dicts preserve insertion order and
    all keys here are distinct, so lookup and iteration agree.
  - The module-level randomness (random.choice / random.random) is modelled by
    an explicit record of pre-drawn values, one per draw site.
  - str.lower / str.capitalize are modelled on the ASCII range (the only cased
    code points occurring in the engine's data and in the claims; Tamil has no
    case).
  - The only fallible behaviour (TypeError-style rejection of a non-string
    message) is modelled with an Except wrapper over a Python-value type.
-/

namespace Sentimate

/- ============ character utilities ============ -/

/-- ASCII lower-casing of one code point, as str.lower acts on the engine's
alphabets (A-Z mapped down, everything else — including Tamil — unchanged). -/
def lowCh (c : Char) : Char :=
  if 'A' ≤ c ∧ c ≤ 'Z' then Char.ofNat (c.toNat + 32) else c

/-- ASCII upper-casing of one code point, as str.upper acts on the engine's
alphabets. -/
def upCh (c : Char) : Char :=
  if 'a' ≤ c ∧ c ≤ 'z' then Char.ofNat (c.toNat - 32) else c

/-- Code-point-wise lower-casing of a text, modelling str.lower. -/
def pyLowerL (l : List Char) : List Char := l.map lowCh

/-- Modelling str.capitalize: first code point upper-cased, the rest
lower-cased. -/
def pyCapitalizeL : List Char → List Char
  | [] => []
  | c :: t => upCh c :: t.map lowCh

/-- Modelling str.strip(): drop leading and trailing whitespace. -/
def pyStripL (l : List Char) : List Char :=
  ((l.dropWhile Char.isWhitespace).reverse.dropWhile Char.isWhitespace).reverse

/-- One code point of the Tamil Unicode block U+0B80..U+0BFF, the test used by
the source's language detector. -/
def isTamilCh (c : Char) : Bool :=
  decide (0x0B80 ≤ c.toNat) && decide (c.toNat ≤ 0x0BFF)

/-- Source function _is_tamil: the message contains a Tamil code point. -/
def is_tamil_text (l : List Char) : Bool := l.any isTamilCh

/-- List-of-code-points prefix test (Python startswith on a slice). -/
def isPrefixL : List Char → List Char → Bool
  | [], _ => true
  | _ :: _, [] => false
  | c :: p, d :: t => (c == d) && isPrefixL p t

/-- Python substring test: needle in hay. -/
def containsChars (needle : List Char) : List Char → Bool
  | [] => needle.isEmpty
  | c :: t => isPrefixL needle (c :: t) || containsChars needle t

/-- An ASCII letter, the regex character class A-Za-z. -/
def isAsciiLetterCh (c : Char) : Bool :=
  (decide ('a' ≤ c) && decide (c ≤ 'z')) || (decide ('A' ≤ c) && decide (c ≤ 'Z'))

/-- Complement of the regex whitespace class. -/
def nonWsCh (c : Char) : Bool := !(Char.isWhitespace c)

/-- Python truthiness of an optional string (None and the empty string are
falsy). -/
def truthy : Option String → Bool
  | none => false
  | some s => !(s.isEmpty)

/-- Python `a or b` on optional strings. -/
def pyOr (a b : Option String) : Option String := if truthy a then a else b

/- ============ RESPONSE LIBRARY — English (EN_RESPONSES) ============ -/

/-- Source dict EN_RESPONSES, in insertion order. -/
def EN_RESPONSES : List (String × List String) := [
  ("greetings", [
    "Hello there! It's so wonderful to hear from you. How are you feeling today?",
    "Hello! I'm so glad you're here. What's on your mind?",
    "Hi! What a pleasure to chat with you today!",
    "Good to see you! How has your day been so far?",
    "Hello, my friend! I'm always happy to talk with you. How are you?",
    "Hi there! Lovely to have you here. How are you doing?",
    "Hello! I was just thinking — how wonderful it is to hear from you!",
    "Welcome! I'm so happy you stopped by. How are you feeling?"]),
  ("status_check", [
    "I'm doing wonderfully, thank you for asking! How about yourself?",
    "I'm here and so happy to chat with you. How's your day been?",
    "I'm doing great! Tell me, how are you feeling today?",
    "I'm doing well, and I'm here for you. What's on your mind?",
    "I'm here for you, always! Is there something special you'd like to talk about?",
    "I'm doing wonderful! And you, my dear friend — how are you?",
    "I'm here and listening. What would you like to share with me today?"]),
  ("emotional_support", [
    "I can hear that things feel difficult right now. You're not alone — I'm right here with you.",
    "It's okay to feel this way. Would you like to talk about what's on your heart?",
    "Loneliness can be very hard. Please know you are valued, cared for, and never truly alone.",
    "I'm here to listen, always. Sometimes just sharing how we feel makes the weight a little lighter.",
    "You are so important, and your feelings truly matter to me. I'm listening.",
    "Even on the hardest days, remember — you have worth, strength, and purpose.",
    "It takes courage to share your feelings. I'm proud of you for reaching out. Tell me more.",
    "I understand. It's not easy, but you don't have to carry this alone — I'm here.",
    "Your feelings are completely valid. I care about how you're doing. Can you tell me more?"]),
  ("gratitude", [
    "You're very welcome! It's truly my pleasure to be here for you.",
    "Thank you for your kind words — they mean so much to me!",
    "I'm so happy I could help. Thank you for talking with me.",
    "You're so kind to say that! I'm here whenever you need me.",
    "I appreciate your gratitude. Helping you brings me such joy.",
    "You're welcome, my friend. I'm always here for you — never hesitate to reach out.",
    "It warms my heart to hear that. Thank you!"]),
  ("encouragement", [
    "You're doing so well! Keep being your wonderful, amazing self.",
    "I believe in you with all my heart! You have so much to offer the world.",
    "That's truly wonderful — you should be very proud of yourself!",
    "What a great spirit you have! You inspire me every day.",
    "You are stronger than you know. Keep going — one step at a time!",
    "That's really commendable! You're making such a difference.",
    "I'm so proud of you. Every little effort you make matters enormously."]),
  ("memories", [
    "I'd love to hear about your memories! Do you have a favourite story to share?",
    "Memories are such a precious treasure. What's something you remember fondly?",
    "You must have so many wonderful life stories. Would you like to share one?",
    "Tell me about a happy moment from your life — I'd love to hear it.",
    "What's a memory that always makes you smile?",
    "I love hearing about your past. What comes to mind right now?",
    "Memories are gifts we carry with us. Share one with me?"]),
  ("health", [
    "Your health is so important! Are you taking good care of yourself today?",
    "How's your health been lately? I hope you're feeling well.",
    "Remember to drink plenty of water and get some rest — your wellbeing matters so much!",
    "Have you taken your medications today? I care about your health.",
    "I hope you're being kind and gentle to yourself and your body.",
    "Taking good care of yourself is an act of self-love. That's truly wonderful!",
    "Your wellbeing is very important to me. Is there anything I can help with?"]),
  ("family", [
    "Family is so precious. Would you like to tell me about someone special in your life?",
    "Relationships with loved ones are such a beautiful gift. How's your family doing?",
    "Who in your life means the most to you? I'd love to hear about them.",
    "Tell me about the people you love — I'm all ears!",
    "Your loved ones are so lucky to have you. How are your relationships?",
    "I'd love to hear about the people closest to your heart.",
    "Family stories are so wonderful. What would you like to share?"]),
  ("happiness", [
    "That's wonderful to hear! What's making you feel so good today?",
    "How lovely! Your happiness makes me happy too. Tell me more!",
    "I'm so glad you're having a good day! What's been the best part?",
    "That's such good news! I love hearing this. Keep smiling!",
    "Your joy is contagious! What wonderful things are happening?"]),
  ("name_received", [
    "What a beautiful name! It's a pleasure to meet you, {name}. How are you doing today?",
    "How lovely to meet you, {name}! I'll remember that. How has your day been?",
    "Oh, {name} — what a wonderful name! I'm so glad to know you. How are you feeling?",
    "Nice to meet you, {name}! I'm Sentimate, your companion. What's on your mind today?",
    "Hello, {name}! I'm so pleased to know your name now. How can I help you today?"]),
  ("name_greeting", [
    "How are you doing today, {name}?",
    "It's so good to hear from you, {name}! What's on your mind?",
    "Hello, {name}! I've been looking forward to chatting with you. How are you?",
    "Good to see you again, {name}! How are you feeling today?"]),
  ("conversation", [
    "I'd love to hear more about what you're thinking!",
    "Tell me more! I'm genuinely interested in what you have to say.",
    "That's really interesting — what else is on your mind?",
    "I'm listening! Please share more if you'd like.",
    "You have such interesting thoughts. Please continue!",
    "I love our conversations. What else would you like to talk about?",
    "Please continue — your thoughts are so valuable to me."]),
  ("default", [
    "That's an interesting thought! Tell me more about that.",
    "I appreciate you sharing that with me. How does it make you feel?",
    "That's something to think about. What else is on your mind?",
    "I'm here to listen, always — keep sharing.",
    "How can I help you feel better today?",
    "That sounds important to you. I'm right here with you.",
    "I understand. Is there something specific you'd like to talk through?",
    "Thank you for sharing that with me. How are you feeling right now?",
    "I value every single conversation we have. What else is on your heart?",
    "You're doing so well by opening up. Please keep going if you'd like."])]

/- ============ RESPONSE LIBRARY — Tamil (TA_RESPONSES) ============ -/

/-- Source dict TA_RESPONSES, in insertion order. -/
def TA_RESPONSES : List (String × List String) := [
  ("greetings", [
    "வணக்கம்! உங்களிடம் பேசுவதற்கு மிகவும் மகிழ்ச்சியாக இருக்கிறது. இன்று எப்படி இருக்கிறீர்கள்?",
    "வணக்கம்! நான் இங்கே இருக்கிறேன். எப்படி உணர்கிறீர்கள்?",
    "வணக்கம் நண்பரே! இன்று என்ன நினைக்கிறீர்கள்?",
    "வணக்கம்! உங்களோடு பேசுவது மிகவும் மகிழ்ச்சியாக உள்ளது.",
    "வணக்கம்! இன்று எப்படி கழிக்கிறீர்கள்?"]),
  ("status_check", [
    "நான் நன்றாக இருக்கிறேன், நன்றி! நீங்கள் எப்படி இருக்கிறீர்கள்?",
    "நான் மகிழ்ச்சியாக இருக்கிறேன். நீங்கள் எப்படி உணர்கிறீர்கள்?",
    "நான் உங்களுக்காக இங்கே இருக்கிறேன். இன்று என்ன விஷயம் பேசலாம்?",
    "நான் நல்லாவே இருக்கேன்! நீங்க?"]),
  ("emotional_support", [
    "உங்கள் உணர்வுகளை புரிந்துகொள்கிறேன். நீங்கள் தனியாக இல்லை — நான் இங்கே இருக்கிறேன்.",
    "சில நேரங்களில் தனிமையாக உணர்வது இயல்பே. மனம் விட்டு பேசுங்கள்.",
    "உங்கள் வலி புரிகிறது. நான் கேட்கிறேன், கவலைப்படாதீர்கள்.",
    "நீங்கள் மதிப்புமிக்கவர். உங்கள் உணர்வுகள் முக்கியமானவை.",
    "துணிச்சலுடன் உள்ளதை சொன்னதற்கு நன்றி. தொடர்ந்து பேசுங்கள்."]),
  ("gratitude", [
    "மிக்க நன்றி! உங்களுக்கு உதவுவது என் மகிழ்ச்சி.",
    "நன்றி! உங்களுடன் பேசுவது எனக்கு மிகவும் மகிழ்ச்சியாக உள்ளது.",
    "நன்றி நண்பரே! எப்போதும் இங்கே இருக்கிறேன்.",
    "உங்கள் அன்பான வார்த்தைகளுக்கு நன்றி!"]),
  ("encouragement", [
    "நீங்கள் மிகவும் நன்றாக செய்கிறீர்கள்! தொடர்ந்து முன்னேறுங்கள்.",
    "உங்களில் நம்பிக்கை வைக்கிறேன். நீங்கள் சக்தியானவர்!",
    "அருமை! இதற்காக நீங்கள் பெருமைப்படலாம்.",
    "உங்கள் மனோதிடம் என்னை ஊக்கப்படுத்துகிறது!"]),
  ("memories", [
    "உங்கள் நினைவுகளைப் பற்றி கேட்க விரும்புகிறேன்! ஒரு கதை சொல்லுங்கள்.",
    "நினைவுகள் மிக விலைமதிப்பற்றவை. ஒரு மகிழ்ச்சியான தருணம் சொல்லுங்கள்.",
    "உங்கள் வாழ்க்கையில் எந்த நினைவு எப்போதும் சிரிக்க வைக்கிறது?"]),
  ("health", [
    "உங்கள் உடல்நலம் மிகவும் முக்கியம்! நன்றாக கவனித்துக்கொள்கிறீர்களா?",
    "இன்று மருந்து சாப்பிட்டீர்களா? உங்கள் ஆரோக்கியம் முக்கியம்.",
    "தண்ணீர் குடிக்கவும், சரியாக தூங்கவும் மறவாதீர்கள்!",
    "உங்கள் உடல்நலம் எப்படி இருக்கிறது? நான் கவலைப்படுகிறேன்."]),
  ("family", [
    "குடும்பம் மிகவும் விலைமதிப்பற்றது. யாராவது விஷேஷமானவர்களைப் பற்றி சொல்லுங்கள்.",
    "உங்கள் குடும்பத்தினர் எப்படி இருக்கிறார்கள்?",
    "உங்கள் மனதிற்கு நெருங்கியவர்களைப் பற்றி சொல்ல விரும்புகிறேன்."]),
  ("happiness", [
    "மிகவும் மகிழ்ச்சியாக இருக்கிறது கேட்கவே! என்ன நடந்தது?",
    "உங்கள் மகிழ்ச்சி எனக்கும் மகிழ்ச்சியே! என்ன விஷேஷம்?",
    "அருமை! தொடர்ந்து சிரித்துக்கொண்டே இருங்கள்!"]),
  ("name_received", [
    "{name} என்ற பெயர் மிக அழகானது! மகிழ்ச்சியாக இருக்கிறது. இன்று எப்படி இருக்கிறீர்கள்?",
    "ஓ, {name}! தெரிந்துகொண்டதற்கு மகிழ்ச்சி. நான் Sentimate. என்ன நினைக்கிறீர்கள்?"]),
  ("name_greeting", [
    "நலமாக இருக்கிறீர்களா, {name}?",
    "{name}! நீங்கள் வந்தது மகிழ்ச்சி. இன்று என்ன விஷயம்?"]),
  ("default", [
    "சுவாரஸ்யமான கருத்து! இன்னும் சொல்லுங்கள்.",
    "புரிகிறது. எப்படி உணர்கிறீர்கள்?",
    "நான் கேட்கிறேன். மனம் விட்டு பேசுங்கள்.",
    "உங்கள் எண்ணங்கள் முக்கியமானவை. தொடருங்கள்.",
    "இன்று எப்படி உதவலாம்?",
    "நன்றி! இன்னும் என்ன நினைக்கிறீர்கள்?"])]

/- ============ KEYWORD MAPPINGS ============ -/

/-- Source dict EN_KEYWORDS (keyword → category), in insertion order. -/
def EN_KEYWORDS : List (String × String) := [
  ("hello", "greetings"), ("hi", "greetings"), ("hey", "greetings"),
  ("good morning", "greetings"), ("good evening", "greetings"),
  ("good afternoon", "greetings"), ("greetings", "greetings"),
  ("how are you", "status_check"), ("how do you do", "status_check"),
  ("how have you been", "status_check"), ("are you okay", "status_check"),
  ("lonely", "emotional_support"), ("loneliness", "emotional_support"),
  ("sad", "emotional_support"), ("depressed", "emotional_support"),
  ("unhappy", "emotional_support"), ("upset", "emotional_support"),
  ("worried", "emotional_support"), ("anxiety", "emotional_support"),
  ("anxious", "emotional_support"), ("scared", "emotional_support"),
  ("afraid", "emotional_support"), ("hurt", "emotional_support"),
  ("crying", "emotional_support"), ("miss", "emotional_support"),
  ("grief", "emotional_support"), ("low", "emotional_support"),
  ("thank you", "gratitude"), ("thank", "gratitude"), ("thanks", "gratitude"),
  ("appreciate", "gratitude"), ("grateful", "gratitude"),
  ("accomplished", "encouragement"), ("achievement", "encouragement"),
  ("proud", "encouragement"), ("success", "encouragement"),
  ("happy", "happiness"), ("great", "happiness"), ("wonderful", "happiness"),
  ("excited", "happiness"), ("joyful", "happiness"), ("joy", "happiness"),
  ("good news", "happiness"), ("fantastic", "happiness"),
  ("remember", "memories"), ("memory", "memories"), ("memories", "memories"),
  ("long ago", "memories"), ("old days", "memories"), ("when i was", "memories"),
  ("the past", "memories"), ("used to", "memories"),
  ("health", "health"), ("medicine", "health"), ("medication", "health"),
  ("doctor", "health"), ("hospital", "health"), ("exercise", "health"),
  ("eating", "health"), ("sleep", "health"), ("pain", "health"),
  ("sick", "health"), ("illness", "health"),
  ("family", "family"), ("mother", "family"), ("father", "family"),
  ("children", "family"), ("grandchild", "family"), ("grandchildren", "family"),
  ("husband", "family"), ("wife", "family"), ("son", "family"),
  ("daughter", "family"), ("loved one", "family"), ("spouse", "family"),
  ("grandson", "family"), ("granddaughter", "family")]

/-- Source dict TA_KEYWORDS (keyword → category), in insertion order. -/
def TA_KEYWORDS : List (String × String) := [
  ("வணக்கம்", "greetings"),
  ("ஹலோ", "greetings"),
  ("காலை வணக்கம்", "greetings"),
  ("மாலை வணக்கம்", "greetings"),
  ("நீங்கள் எப்படி", "status_check"),
  ("எப்படி இருக்கிறீர்கள்", "status_check"),
  ("எப்படி இருக்க", "status_check"),
  ("தனிமை", "emotional_support"),
  ("சோகம்", "emotional_support"),
  ("கஷ்டம்", "emotional_support"),
  ("வலிக்கிறது", "emotional_support"),
  ("கஷ்டமாக", "emotional_support"),
  ("அழுகிறேன்", "emotional_support"),
  ("நன்றி", "gratitude"),
  ("மிக்க நன்றி", "gratitude"),
  ("சந்தோஷம்", "happiness"),
  ("மகிழ்ச்சி", "happiness"),
  ("குடும்பம்", "family"),
  ("அம்மா", "family"),
  ("அப்பா", "family"),
  ("பிள்ளைகள்", "family"),
  ("பேரன்", "family"),
  ("பேத்தி", "family"),
  ("நினைவு", "memories"),
  ("பழைய நாட்கள்", "memories"),
  ("உடல்நலம்", "health"),
  ("மருந்து", "health"),
  ("டாக்டர்", "health"),
  ("என் பெயர்", "name_intro_ta"),
  ("என்னை", "name_intro_ta")]

/- ============ FOLLOW-UP QUESTIONS ============ -/

/-- Source list EN_FOLLOWUPS (each entry begins with a space, as in the
source). -/
def EN_FOLLOWUPS : List String := [
  " What else is on your mind today?",
  " How are you feeling overall?",
  " Is there anything else you'd like to share?",
  " What would you like to talk about next?",
  " Is there something I can do to make your day better?",
  " Would you like to tell me more?"]

/-- Source list TA_FOLLOWUPS (each entry begins with a space, as in the
source). -/
def TA_FOLLOWUPS : List String := [
  " இன்னும் என்ன நினைக்கிறீர்கள்?",
  " வேறு என்ன பேசலாம்?",
  " நான் வேறு எதாவது உதவலாமா?",
  " இன்னும் சொல்ல விரும்புகிறீர்களா?"]

/- ============ NAME EXTRACTION ============ -/

/-
The source applies re.search with re.IGNORECASE to the patterns of
_NAME_PATTERNS in order.  Each pattern is a literal followed by a greedy
one-or-more capture; re.search finds the leftmost position where the literal
matches and at least one capture-class character follows, and the capture is
the maximal run of class characters there.  Case-insensitivity is modelled by
matching the lower-cased message against lower-cased literals; since the
captured group is immediately capitalized (first code point up, rest down),
capturing from the lower-cased text yields the identical candidate.
-/

/-- Literal of pattern r"my name is ([A-Za-z]+)". -/
def lit_my_name_is : List Char := String.data ("my name is ")

/-- Literal of pattern r"i am ([A-Za-z]+)". -/
def lit_i_am : List Char := String.data ("i am ")

/-- Literal of pattern r"i'm ([A-Za-z]+)". -/
def lit_i_m : List Char := String.data ("i'm ")

/-- Literal of pattern r"call me ([A-Za-z]+)". -/
def lit_call_me : List Char := String.data ("call me ")

/-- Literal of the Tamil pattern with capture after it. -/
def lit_en_peyar : List Char := String.data ("என் பெயர் ")

/-- Leading literal of the second Tamil pattern. -/
def lit_ennai : List Char := String.data ("என்னை ")

/-- Trailing literal of the second Tamil pattern. -/
def lit_endru : List Char := String.data (" என்று")

/-- At one position: match a literal then capture the maximal nonempty run of
class characters (the regex `lit([class]+)` anchored here). -/
def captureAfter (lit : List Char) (isCap : Char → Bool) (text : List Char) :
    Option (List Char) :=
  if isPrefixL lit text then
    let cap := (text.drop lit.length).takeWhile isCap
    if cap.isEmpty then none else some cap
  else none

/-- re.search for `lit([class]+)`: leftmost position wins. -/
def searchCapture (lit : List Char) (isCap : Char → Bool) :
    List Char → Option (List Char)
  | [] => none
  | c :: t =>
    match captureAfter lit isCap (c :: t) with
    | some cap => some cap
    | none => searchCapture lit isCap t

/-- One backtracking variant of the pattern r"name'?s? ([A-Za-z]+)": a middle
literal, then a space and the capture. -/
def nameVariant (t : List Char) (mid : List Char) : Option (List Char) :=
  if isPrefixL mid t then
    let cap := (t.drop mid.length).takeWhile isAsciiLetterCh
    if cap.isEmpty then none else some cap
  else none

/-- Anchored match of r"name'?s? ([A-Za-z]+)": after the literal "name" the
regex engine prefers the apostrophe and the s when present, backtracking in
the order 's-space, apostrophe-space, s-space, space. -/
def nameVariantAt (text : List Char) : Option (List Char) :=
  if isPrefixL (String.data ("name")) text then
    let t := text.drop 4
    match nameVariant t [Char.ofNat 39, 's', ' '] with
    | some cap => some cap
    | none =>
      match nameVariant t [Char.ofNat 39, ' '] with
      | some cap => some cap
      | none =>
        match nameVariant t ['s', ' '] with
        | some cap => some cap
        | none => nameVariant t [' ']
  else none

/-- re.search for r"name'?s? ([A-Za-z]+)". -/
def searchNameVariant : List Char → Option (List Char)
  | [] => none
  | c :: t =>
    match nameVariantAt (c :: t) with
    | some cap => some cap
    | none => searchNameVariant t

/-- Anchored match of the Tamil pattern with a trailing literal: the greedy
nonspace capture must be followed immediately by the trailing literal (a
shorter capture would put a nonspace character where the pattern needs a
space, so only the maximal run can match). -/
def ennaiAt (text : List Char) : Option (List Char) :=
  if isPrefixL lit_ennai text then
    let r := text.drop lit_ennai.length
    let cap := r.takeWhile nonWsCh
    if cap.isEmpty then none
    else if isPrefixL lit_endru (r.drop cap.length) then some cap else none
  else none

/-- re.search for the second Tamil pattern. -/
def searchEnnai : List Char → Option (List Char)
  | [] => none
  | c :: t =>
    match ennaiAt (c :: t) with
    | some cap => some cap
    | none => searchEnnai t

/-- The source's skip_words stop-list of common non-name words. -/
def skip_words : List (List Char) := List.map String.data [
  "fine", "ok", "okay", "good", "great", "doing", "well",
  "sad", "happy", "here", "back", "ready", "not", "feeling",
  "a", "an", "the", "just", "so", "very", "now", "still"]

/-- Candidate filter of _extract_name: capitalize the captured group (the
capture never contains whitespace, so the source's strip() is the identity),
then require the lower-cased form off the stop-list and length at least 2. -/
def acceptCandidate (cap : List Char) : Option (List Char) :=
  let candidate := pyCapitalizeL cap
  if !(skip_words.contains (candidate.map lowCh)) && decide (2 ≤ candidate.length)
  then some candidate else none

/-- The match of each _NAME_PATTERNS entry, in source order, on the
lower-cased message. -/
def patternMatches (m : List Char) : List (Option (List Char)) := [
  searchCapture lit_my_name_is isAsciiLetterCh m,
  searchCapture lit_i_am isAsciiLetterCh m,
  searchCapture lit_i_m isAsciiLetterCh m,
  searchCapture lit_call_me isAsciiLetterCh m,
  searchNameVariant m,
  searchCapture lit_en_peyar nonWsCh m,
  searchEnnai m]

/-- First pattern whose match passes the candidate filter wins; a rejected
candidate falls through to the next pattern, as in the source loop. -/
def firstAccepted : List (Option (List Char)) → Option (List Char)
  | [] => none
  | r :: rest =>
    match r.bind acceptCandidate with
    | some n => some n
    | none => firstAccepted rest

/-- Source function _extract_name on code-point lists. -/
def extractNameL (message : List Char) : Option (List Char) :=
  firstAccepted (patternMatches (pyLowerL message))

/-- Source function _extract_name. -/
def extract_name (message : String) : Option String :=
  (extractNameL message.data).map (fun l => String.mk l)

/- ============ KEYWORD MATCHING ============ -/

/-- Sort key of the source's keyword ordering: keyword length. -/
def kwLen (x : String × String) : Nat := x.1.length

/-- Stable insertion into a descending-by-length list: the new element goes
after every element of length greater or equal, mirroring Python's stable
sorted(..., key=len, reverse=True). -/
def insertDesc (x : String × String) :
    List (String × String) → List (String × String)
  | [] => [x]
  | y :: ys => if kwLen x ≤ kwLen y then y :: insertDesc x ys else x :: y :: ys

/-- Stable sort by descending keyword length. -/
def sortByLenDesc (l : List (String × String)) : List (String × String) :=
  l.foldl (fun acc x => insertDesc x acc) []

/-- Category of the first keyword (in the given order) occurring as a
substring of the message. -/
def firstMatchCat : List (String × String) → List Char → Option String
  | [], _ => none
  | (kw, cat) :: rest, m =>
    if containsChars kw.data m then some cat else firstMatchCat rest m

/-- Source function _match_category: scan the language's keyword table sorted
by descending keyword length; first (longest) substring hit wins, else
"default". -/
def match_category (message_lower : List Char) (is_tam : Bool) : String :=
  let keyword_map := if is_tam then TA_KEYWORDS else EN_KEYWORDS
  (firstMatchCat (sortByLenDesc keyword_map) message_lower).getD ("default")

/- ============ HISTORY ANALYSIS ============ -/

/-- One prior conversation turn, as a Python dict with possibly missing keys:
msg.get(k) is None exactly when the key is absent. -/
structure Turn where
  sender : Option String
  message : Option String
deriving DecidableEq

/-- The source's emotional_kws dict (keyword → tone), in insertion order. -/
def emotional_kws : List (String × String) := [
  ("lonely", "lonely"), ("loneliness", "lonely"),
  ("sad", "sad"), ("depressed", "sad"), ("unhappy", "sad"),
  ("worried", "worried"), ("anxious", "worried"),
  ("scared", "scared"), ("happy", "happy"), ("joy", "happy")]

/-- Python tone_counts[tone] = tone_counts.get(tone, 0) + 1 on an
insertion-ordered dict: increment in place, or append a fresh key at the
end. -/
def bump : List (String × Nat) → String → List (String × Nat)
  | [], tone => [(tone, 1)]
  | (t, c) :: rest, tone =>
    if t = tone then (t, c + 1) :: rest else (t, c) :: bump rest tone

/-- The tone tallies contributed by one history turn: non-user turns (also
turns with the sender key absent) contribute nothing; a missing message key
reads as the empty string. -/
def scanTurn (counts : List (String × Nat)) (t : Turn) : List (String × Nat) :=
  if t.sender == some ("user") then
    emotional_kws.foldl
      (fun cs p =>
        if containsChars p.1.data (pyLowerL ((t.message.getD ("")).data))
        then bump cs p.2 else cs)
      counts
  else counts

/-- Python max(d, key=d.get) over an insertion-ordered dict: the first key of
maximal count (a later key replaces the champion only when strictly
greater). -/
def maxByGo (t : String) (c : Nat) : List (String × Nat) → String
  | [] => t
  | (t2, c2) :: rest => if c < c2 then maxByGo t2 c2 rest else maxByGo t c rest

/-- Dominant tone of a tally, None when the tally is empty. -/
def maxByCount : List (String × Nat) → Option String
  | [] => none
  | (t, c) :: rest => some (maxByGo t c rest)

/-- The source's phrases dict mapping a dominant tone to its empathetic
preamble (each preamble carries its own trailing space). -/
def tone_phrases : List (String × String) := [
  ("lonely", "I remember you mentioned feeling lonely earlier — I want you to know I'm here. "),
  ("sad", "I noticed you've been feeling a bit down — I hope this conversation helps. "),
  ("worried", "I know things have felt worrying lately — remember you don't have to face it alone. "),
  ("scared", "It sounds like things have been a little scary. I'm right here with you. "),
  ("happy", "It's so lovely that you've been in good spirits! ")]

/-- The most recent six turns, Python history[-6:]. -/
def lastSix (h : List Turn) : List Turn := h.drop (h.length - 6)

/-- Source function _analyse_history: tally emotional keywords over the user
turns of the last six history entries, then map the dominant tone to its
preamble. -/
def analyse_history (history : List Turn) : Option String :=
  let counts := (lastSix history).foldl scanTurn []
  match maxByCount counts with
  | none => none
  | some dominant => tone_phrases.lookup dominant

/-- The history note as computed inside get_response: _analyse_history runs
only when at least three turns were supplied. -/
def history_note (history : List Turn) : Option String :=
  if 3 ≤ history.length then analyse_history history else none

/- ============ SECONDARY RESPONDER (src/ai_chatbot.py) ============ -/

/-- Lonely/alone pool of get_ai_response. -/
def AI_LONELY : List String := [
  "I'm here with you. You never have to feel alone while talking to me.",
  "Sometimes talking helps reduce loneliness. Would you like to share more?",
  "You are not alone. I'm always here to listen."]

/-- Sad/cry pool of get_ai_response. -/
def AI_SAD : List String := [
  "I'm sorry you feel this way. Your feelings matter.",
  "It's okay to feel sad sometimes. I'm here with you.",
  "You can share anything with me safely."]

/-- Happy pool of get_ai_response. -/
def AI_HAPPY : List String := [
  "Your happiness makes me happy too.",
  "That's wonderful! Tell me more.",
  "It's nice to hear positive things from you."]

/-- Family pool of get_ai_response. -/
def AI_FAMILY : List String := [
  "Family memories are precious.",
  "Would you like to tell me about your family?",
  "Family brings warmth to life."]

/-- Health pool of get_ai_response. -/
def AI_HEALTH : List String := [
  "Health is very important.",
  "Did you take medicines today?",
  "Taking care of yourself matters."]

/-- Fallback pool of get_ai_response. -/
def AI_DEFAULT : List String := [
  "Tell me more.",
  "I am listening.",
  "Please continue.",
  "What else would you like to share?"]

/-- random.choice over a nonempty pool, fed one pre-drawn index (reduced
modulo the pool size; the source's pools are never empty). -/
def chooseStr (l : List String) (k : Nat) : String := l.getD (k % l.length) ("")

/-- random.choice as a code-point list. -/
def chooseL (l : List String) (k : Nat) : List Char := (chooseStr l k).data

/-- Source function get_ai_response: lower-case the message, then walk the
keyword branch chain; username is accepted and unused, as in the source. -/
def get_ai_response (ml : List Char) (_username : Option String) (k : Nat) :
    List Char :=
  if containsChars (String.data ("lonely")) ml
      || containsChars (String.data ("alone")) ml then
    chooseL AI_LONELY k
  else if containsChars (String.data ("sad")) ml
      || containsChars (String.data ("cry")) ml then
    chooseL AI_SAD k
  else if containsChars (String.data ("happy")) ml then
    chooseL AI_HAPPY k
  else if containsChars (String.data ("family")) ml then
    chooseL AI_FAMILY k
  else if containsChars (String.data ("health")) ml then
    chooseL AI_HEALTH k
  else if containsChars (String.data ("name")) ml then
    String.data ("That is a nice name.")
  else
    chooseL AI_DEFAULT k

/- ============ TEMPLATE INTERPOLATION ============ -/

/-- The {name} placeholder of the templates. -/
def placeholderL : List Char := String.data ("{name}")

/-- Interpolation worker: scan the template, replacing each occurrence of the
placeholder by the name; the substituted value is never re-scanned.  The drop
of 5 skips the rest of the six-code-point placeholder after its head.  The
fuel only bounds the recursion (each step consumes at least one template code
point, so fuel = template length always suffices and the zero-fuel branch is
unreachable from formatName). -/
def formatGo (name : List Char) : Nat → List Char → List Char
  | _, [] => []
  | 0, t => t
  | fuel + 1, c :: r =>
    if isPrefixL placeholderL (c :: r) then name ++ formatGo name fuel (r.drop 5)
    else c :: formatGo name fuel r

/-- Python template.format(name=...) on the engine's templates. -/
def formatName (t name : List Char) : List Char := formatGo name t.length t

/- ============ PUBLIC API (get_response) ============ -/

/-- The structured result of the engine. -/
structure ResponseResult where
  response : String
  detected_name : Option String
  language : String
deriving DecidableEq

/-- One record of pre-drawn randomness, one field per draw site of a single
get_response call. -/
structure Draws where
  baseChoice : Nat
  greetCoin : Bool
  histCoin : Bool
  followCoin : Bool
  followChoice : Nat
  aiChoice : Nat
deriving DecidableEq

/-- Python responses.get(cat, responses[fallback]) over the response
tables. -/
def poolGetOr (tbl : List (String × List String)) (cat fallback : String) :
    List String :=
  (tbl.lookup cat).getD ((tbl.lookup fallback).getD [])

/-- Python base.rstrip().endswith(a question mark). -/
def endsQ (l : List Char) : Bool :=
  match (l.reverse.dropWhile Char.isWhitespace) with
  | [] => false
  | c :: _ => c == '?'

/-- The components of one nonempty-message response, in the order the source
computes them. -/
structure Parts where
  pre : List Char
  base : List Char
  ai : List Char
  fw : List Char
  nameOut : Option String
  langOut : String

/-- The resolved language flag of step 1: forcing tamil wins, anything else
falls back to detection. -/
def isTamOf (message : List Char) (forced_language : Option String) : Bool :=
  if forced_language = some ("tamil") then true else is_tamil_text message

/-- The response table of the resolved language. -/
def responsesOf (tam : Bool) : List (String × List String) :=
  if tam then TA_RESPONSES else EN_RESPONSES

/-- The follow-up pool of the resolved language. -/
def followupsOf (tam : Bool) : List String :=
  if tam then TA_FOLLOWUPS else EN_FOLLOWUPS

/-- Step 1 of get_response: this turn's extracted name. -/
def detectedOf (message : List Char) : Option String :=
  (extractNameL message).map (fun l => String.mk l)

/-- Step 2 of get_response: raw category plus the Tamil intro remap (the
pseudo-category becomes name_received only when a name was extracted). -/
def categoryOf (message : List Char) (tam : Bool) : String :=
  let category0 := match_category (pyLowerL message) tam
  if category0 = "name_intro_ta" ∧ truthy (detectedOf message) = true
  then "name_received" else category0

/-- Step 3 of get_response: base template selection (name_received pool with
the extracted name; greetings with a 0.55-coin choice of the name_greeting
pool under the effective name; otherwise the category pool). -/
def baseOf (message : List Char) (display_name : Option String) (tam : Bool)
    (d : Draws) : List Char :=
  let responses := responsesOf tam
  let detected_name := detectedOf message
  let effective_name := pyOr detected_name display_name
  let category := categoryOf message tam
  if category = "name_received" ∧ truthy detected_name = true then
    formatName (chooseL (poolGetOr responses ("name_received") ("default"))
      d.baseChoice) ((detected_name.getD ("")).data)
  else if category = "greetings" ∧ truthy effective_name = true then
    if d.greetCoin then
      formatName (chooseL (poolGetOr responses ("name_greeting") ("greetings"))
        d.baseChoice) ((effective_name.getD ("")).data)
    else
      chooseL (poolGetOr responses ("greetings") ("default")) d.baseChoice
  else
    chooseL (poolGetOr responses category ("default")) d.baseChoice

/-- Step 4 of get_response: the optional history preamble, kept with the
0.35-coin. -/
def preOf (history : List Turn) (d : Draws) : List Char :=
  if truthy (history_note history) = true ∧ d.histCoin
  then ((history_note history).getD ("")).data else []

/-- Step 5 of get_response: unless the base already ends with a question
mark, the 0.75-coin appends a space plus a follow-up drawn from the
language's pool. -/
def fwOf (base : List Char) (tam : Bool) (d : Draws) : List Char :=
  if endsQ base then []
  else if d.followCoin then ' ' :: chooseL (followupsOf tam) d.followChoice
  else []

/-- Steps 1-6 of get_response on an already stripped nonempty message:
language resolution, name extraction, category matching with the Tamil intro
remap, base template selection, history preamble, follow-up, and the
secondary responder. -/
def generateParts (message : List Char) (username : Option String)
    (history : List Turn) (display_name : Option String)
    (forced_language : Option String) (d : Draws) : Parts :=
  let is_tam := isTamOf message forced_language
  { pre := preOf history d,
    base := baseOf message display_name is_tam d,
    ai := get_ai_response (pyLowerL message) username d.aiChoice,
    fw := fwOf (baseOf message display_name is_tam d) is_tam d,
    nameOut := detectedOf message,
    langOut := if is_tam then "tamil" else "english" }

/-- The fixed empty-input result of get_response. -/
def emptyResult : ResponseResult :=
  { response := "I'm here to listen. Feel free to share whatever's on your mind! 💚",
    detected_name := none,
    language := "english" }

/-- Step 7 of get_response: prefix + base + one space + secondary text +
follow-up. -/
def buildResult (p : Parts) : ResponseResult :=
  { response := String.mk (p.pre ++ p.base ++ [' '] ++ p.ai ++ p.fw),
    detected_name := p.nameOut,
    language := p.langOut }

/-- Source function get_response on a message already known to be a string:
strip, short-circuit the empty message, otherwise run the full pipeline. -/
def generate_response (user_message : String) (username : Option String)
    (history : List Turn) (display_name : Option String)
    (forced_language : Option String) (d : Draws) : ResponseResult :=
  let message := pyStripL user_message.data
  if message.isEmpty then emptyResult
  else buildResult
    (generateParts message username history display_name forced_language d)

/- ============ INPUT VALIDATION WRAPPER ============ -/

/-- A dynamically typed Python argument, as far as the claims need it. -/
inductive PyVal where
  | pyNone : PyVal
  | pyStr : String → PyVal
  | pyInt : Int → PyVal
  | pyList : List PyVal → PyVal

/-- Whether the dynamic argument is a string (Python isinstance(m, str)). -/
def isStrVal : PyVal → Bool
  | .pyStr _ => true
  | _ => false

/-- The engine's only error: top-level rejection of a non-string message. -/
inductive ChatError where
  | invalidInput : ChatError
deriving DecidableEq

/-- Source function get_response including its input-type validation: a
non-string message raises, a string message always returns a result. -/
def get_response (user_message : PyVal) (username : Option String)
    (history : List Turn) (display_name : Option String)
    (forced_language : Option String) (d : Draws) :
    Except ChatError ResponseResult :=
  match user_message with
  | .pyStr s =>
    .ok (generate_response s username history display_name forced_language d)
  | _ => .error .invalidInput

/-- A fixed record of draws for concrete instances. -/
def d0 : Draws :=
  { baseChoice := 0, greetCoin := false, histCoin := false,
    followCoin := false, followChoice := 0, aiChoice := 0 }

/-- A fixed record of draws whose coin forces the follow-up question. -/
def d2 : Draws :=
  { baseChoice := 2, greetCoin := false, histCoin := false,
    followCoin := true, followChoice := 0, aiChoice := 0 }

/-- The user-sent entries of a history window (the only entries
_analyse_history reads). -/
def userTurns (l : List Turn) : List Turn :=
  l.filter (fun t => t.sender == some ("user"))

/-- A text containing no opening-brace code point (U+007B); without one no
literal placeholder can occur. -/
def braceFree (l : List Char) : Bool := l.all (fun c => !(c == Char.ofNat 123))

/- ============ helper lemmas ============ -/

theorem getD_mod_mem (l : List String) (k : Nat) (hd : String)
    (h : l ≠ []) : l.getD (k % l.length) hd ∈ l := by
  have hlen : 0 < l.length := List.length_pos.mpr h
  have hlt : k % l.length < l.length := Nat.mod_lt _ hlen
  rw [List.getD_eq_getElem?_getD, List.getElem?_eq_getElem hlt]
  exact List.getElem_mem hlt

theorem chooseStr_mem (l : List String) (k : Nat) (h : l ≠ []) :
    chooseStr l k ∈ l := getD_mod_mem l k ("") h

theorem lookup_mem {β : Type} {l : List (String × β)} {k : String} {v : β}
    (h : l.lookup k = some v) : (k, v) ∈ l := by
  induction l with
  | nil => simp [List.lookup] at h
  | cons p rest ih =>
    rw [List.lookup] at h
    by_cases hk : k == p.1
    · simp only [hk, if_true] at h
      cases h
      have : k = p.1 := by simpa using hk
      subst this
      exact List.mem_cons_self _ _
    · simp only [hk, if_false] at h
      exact List.mem_cons_of_mem _ (ih h)

theorem contains_head_mem {c : Char} {p l : List Char}
    (h : containsChars (c :: p) l = true) : c ∈ l := by
  induction l with
  | nil => simp [containsChars] at h
  | cons d t ih =>
    rw [containsChars] at h
    rcases Bool.or_eq_true_iff.mp h with h1 | h2
    · rw [isPrefixL] at h1
      have : c = d := by
        rcases Bool.and_eq_true_iff.mp h1 with ⟨he, _⟩
        simpa using he
      subst this
      exact List.mem_cons_self _ _
    · exact List.mem_cons_of_mem _ (ih h2)

theorem any_reverse_eq (p : Char → Bool) (l : List Char) :
    l.reverse.any p = l.any p := by
  rcases hb : l.any p with _ | _
  · rw [List.any_eq_false] at hb ⊢
    intro x hx
    exact hb x (List.mem_reverse.mp hx)
  · rw [List.any_eq_true] at hb ⊢
    rcases hb with ⟨x, hx, hp⟩
    exact ⟨x, List.mem_reverse.mpr hx, hp⟩

theorem any_dropWhile_of_imp (p q : Char → Bool)
    (h : ∀ c, q c = true → p c = false) (l : List Char) :
    (l.dropWhile q).any p = l.any p := by
  induction l with
  | nil => rfl
  | cons c t ih =>
    rw [List.dropWhile_cons]
    by_cases hq : q c = true
    · simp only [hq, if_true, List.any_cons, h c hq, Bool.false_or]
      exact ih
    · simp [hq]

theorem isTamilCh_of_ws (c : Char) (h : Char.isWhitespace c = true) :
    isTamilCh c = false := by
  rcases Bool.or_eq_true_iff.mp h with h1 | h4
  · rcases Bool.or_eq_true_iff.mp h1 with h2 | h3
    · rcases Bool.or_eq_true_iff.mp h2 with h5 | h6
      · have : c = ' ' := by simpa using h5
        subst this; decide
      · have : c = Char.ofNat 9 := by simpa using h6
        subst this; decide
    · have : c = Char.ofNat 13 := by simpa using h3
      subst this; decide
  · have : c = Char.ofNat 10 := by simpa using h4
    subst this; decide

theorem is_tamil_strip (l : List Char) :
    is_tamil_text (pyStripL l) = is_tamil_text l := by
  unfold pyStripL is_tamil_text
  rw [any_reverse_eq, any_dropWhile_of_imp _ _ isTamilCh_of_ws,
    any_reverse_eq, any_dropWhile_of_imp _ _ isTamilCh_of_ws]

theorem generateParts_langOut (m : List Char) (u : Option String)
    (h : List Turn) (dn : Option String) (fl : Option String) (d : Draws) :
    (generateParts m u h dn fl d).langOut =
      if (if fl = some ("tamil") then true else is_tamil_text m)
      then "tamil" else "english" := rfl

theorem generateParts_nameOut (m : List Char) (u : Option String)
    (h : List Turn) (dn : Option String) (fl : Option String) (d : Draws) :
    (generateParts m u h dn fl d).nameOut =
      (extractNameL m).map (fun l => String.mk l) := rfl

/- ============ claim theorems ============ -/

/-- C1.  Input validation of get_response: a non-string message is rejected
with the InvalidInput error, and every string message (with any history of
dict-like turns) yields an ok ResponseResult, never an error. -/
theorem claim1_input_validation :
    ∀ (v : PyVal) (u : Option String) (h : List Turn) (dn : Option String)
      (fl : Option String) (d : Draws),
      (isStrVal v = false →
        get_response v u h dn fl d = Except.error ChatError.invalidInput)
      ∧ (∀ s : String, v = PyVal.pyStr s →
        get_response v u h dn fl d =
          Except.ok (generate_response s u h dn fl d)) := by
  intro v u h dn fl d
  constructor
  · intro hv
    cases v with
    | pyStr s => simp [isStrVal] at hv
    | pyNone => rfl
    | pyInt n => rfl
    | pyList xs => rfl
  · intro s hs
    subst hs
    rfl

/-- Witness for C1 at concrete inputs: None is rejected, a string returns
ok. -/
theorem claim1_witness :
    get_response PyVal.pyNone none [] none none d0
        = Except.error ChatError.invalidInput
    ∧ get_response (PyVal.pyStr ("hi")) none [] none none d0
        = Except.ok (generate_response ("hi") none [] none none d0) :=
  ⟨(claim1_input_validation PyVal.pyNone none [] none none d0).1 rfl,
   (claim1_input_validation (PyVal.pyStr ("hi")) none [] none none d0).2
     ("hi") rfl⟩

/-- C2.  A message that strips to empty short-circuits the engine: the result
is the fixed empty-input response with no detected name and language english,
independently of every other parameter and of every other component. -/
theorem claim2_empty_message :
    ∀ (msg : String) (u : Option String) (h : List Turn) (dn : Option String)
      (fl : Option String) (d : Draws),
      pyStripL msg.data = [] →
      generate_response msg u h dn fl d =
        { response := "I'm here to listen. Feel free to share whatever's on your mind! 💚",
          detected_name := none,
          language := "english" } := by
  intro msg u h dn fl d hstrip
  unfold generate_response
  simp only [hstrip, List.isEmpty_nil, if_true]
  rfl

/-- Witness for C2: a whitespace-only message at arbitrary other
parameters. -/
theorem claim2_witness :
    generate_response ("   ") (some ("u")) [] (some ("Kamala"))
        (some ("tamil")) d0 =
      { response := "I'm here to listen. Feel free to share whatever's on your mind! 💚",
        detected_name := none,
        language := "english" } :=
  claim2_empty_message ("   ") (some ("u")) [] (some ("Kamala"))
    (some ("tamil")) d0 (by decide)

/-- C9.  detected_name depends only on the message and never on username,
history or display_name: two calls with the same message, forced language and
draws agree on it. -/
theorem claim9_detected_name_noninterference :
    ∀ (msg : String) (d : Draws) (fl : Option String)
      (u1 u2 : Option String) (h1 h2 : List Turn) (dn1 dn2 : Option String),
      (generate_response msg u1 h1 dn1 fl d).detected_name
        = (generate_response msg u2 h2 dn2 fl d).detected_name := by
  intro msg d fl u1 u2 h1 h2 dn1 dn2
  unfold generate_response
  by_cases he : (pyStripL msg.data).isEmpty
  · simp [he]
  · simp only [he, if_false, Bool.false_eq_true]
    show (buildResult _).detected_name = (buildResult _).detected_name
    unfold buildResult
    simp only [generateParts_nameOut]

theorem language_formula (msg : String) (u : Option String) (h : List Turn)
    (dn : Option String) (fl : Option String) (d : Draws)
    (hne : pyStripL msg.data ≠ []) :
    (generate_response msg u h dn fl d).language =
      if (if fl = some ("tamil") then true else is_tamil_text msg.data)
      then "tamil" else "english" := by
  have he : (pyStripL msg.data).isEmpty = false := by
    rcases h' : pyStripL msg.data with _ | ⟨c, t⟩
    · exact absurd h' hne
    · rfl
  unfold generate_response
  simp only [he, Bool.false_eq_true, if_false]
  show (buildResult _).language = _
  unfold buildResult
  simp only [generateParts_langOut]
  rw [is_tamil_strip]

/-- C3.  Language resolution on a nonempty message: the result language is
tamil exactly when the caller forces tamil or the message contains a code
point of the Tamil block, english otherwise; in particular an ASCII-only
message with no forced override resolves to english. -/
theorem claim3_language_rule :
    ∀ (msg : String) (u : Option String) (h : List Turn) (dn : Option String)
      (fl : Option String) (d : Draws),
      pyStripL msg.data ≠ [] →
      (((generate_response msg u h dn fl d).language = "tamil") ↔
        (fl = some ("tamil") ∨ is_tamil_text msg.data = true))
      ∧ (¬ (fl = some ("tamil") ∨ is_tamil_text msg.data = true) →
          (generate_response msg u h dn fl d).language = "english")
      ∧ ((∀ c ∈ msg.data, c.toNat < 128) → fl = none →
          (generate_response msg u h dn fl d).language = "english") := by
  intro msg u h dn fl d hne
  rw [language_formula msg u h dn fl d hne]
  have hascii : (∀ c ∈ msg.data, c.toNat < 128) →
      is_tamil_text msg.data = false := by
    intro ha
    rw [is_tamil_text, List.any_eq_false]
    intro c hc
    have := ha c hc
    rw [isTamilCh]
    have h1 : decide (2944 ≤ c.toNat) = false := by
      rw [decide_eq_false_iff_not]
      omega
    rw [h1, Bool.false_and]
    simp
  by_cases hf : fl = some ("tamil")
  · refine ⟨by simp [hf], ?_, ?_⟩
    · intro hcon
      exact absurd (Or.inl hf) hcon
    · intro _ hnone
      rw [hnone] at hf
      exact absurd hf (by simp)
  · by_cases ht : is_tamil_text msg.data = true
    · refine ⟨by simp [hf, ht], ?_, ?_⟩
      · intro hcon
        exact absurd (Or.inr ht) hcon
      · intro ha _
        rw [hascii ha] at ht
        exact absurd ht (by simp)
    · have h2 : is_tamil_text msg.data = false := by
        rcases hb : is_tamil_text msg.data with _ | _
        · rfl
        · exact absurd hb ht
      refine ⟨?_, ?_, ?_⟩
      · simp only [hf, if_false, h2, Bool.false_eq_true]
        constructor
        · intro hcon
          exact absurd hcon (by decide)
        · intro hcon
          rcases hcon with hcon | hcon
          · exact hcon.elim
          · exact hcon.elim
      · intro _
        simp [hf, h2]
      · intro _ _
        simp [hf, h2]

/-- Witness for C3 at a concrete Tamil message and a concrete English
message. -/
theorem claim3_witness :
    (((generate_response ("வணக்கம்") none [] none none d0).language = "tamil")
      ↔ (none = some ("tamil") ∨ is_tamil_text (String.data ("வணக்கம்")) = true))
    ∧ (((generate_response ("hello") none [] none none d0).language = "tamil")
      ↔ (none = some ("tamil") ∨ is_tamil_text (String.data ("hello")) = true)) :=
  ⟨(claim3_language_rule ("வணக்கம்") none [] none none d0 (by decide)).1,
   (claim3_language_rule ("hello") none [] none none d0 (by decide)).1⟩

/-- C4 counterexample.  Forcing english does not bypass detection: a Tamil
message with forced_language = english still resolves to tamil, refuting the
english direction of the claim. -/
theorem claim4_counterexample :
    (generate_response ("வணக்கம்") none [] none (some ("english")) d0).language
      = "tamil" := by decide

/-- C4 as amended.  The override works only towards tamil: forcing tamil
yields tamil even for an ASCII-only message, while forcing english leaves
automatic detection in charge, so a message containing Tamil code points
still resolves to tamil. -/
theorem claim4_amended :
    ∀ (msg : String) (u : Option String) (h : List Turn) (dn : Option String)
      (d : Draws),
      pyStripL msg.data ≠ [] →
      ((generate_response msg u h dn (some ("tamil")) d).language = "tamil")
      ∧ ((generate_response msg u h dn (some ("english")) d).language =
          if is_tamil_text msg.data = true then "tamil" else "english") := by
  intro msg u h dn d hne
  constructor
  · rw [language_formula msg u h dn (some ("tamil")) d hne]
    simp
  · rw [language_formula msg u h dn (some ("english")) d hne]
    simp

/-- Witness for the amended C4: an ASCII message forced to tamil resolves to
tamil, and the same message forced to english resolves to english. -/
theorem claim4_amended_witness :
    ((generate_response ("hello") none [] none (some ("tamil")) d0).language
      = "tamil")
    ∧ ((generate_response ("hello") none [] none (some ("english")) d0).language
      = if is_tamil_text (String.data ("hello")) = true
        then "tamil" else "english") :=
  claim4_amended ("hello") none [] none d0 (by decide)

theorem acceptCandidate_props {cap n : List Char}
    (h : acceptCandidate cap = some n) :
    2 ≤ n.length ∧ skip_words.contains (n.map lowCh) = false := by
  unfold acceptCandidate at h
  by_cases hc : (!(skip_words.contains ((pyCapitalizeL cap).map lowCh))
      && decide (2 ≤ (pyCapitalizeL cap).length)) = true
  · rw [if_pos hc] at h
    cases h
    rcases Bool.and_eq_true_iff.mp hc with ⟨h1, h2⟩
    refine ⟨of_decide_eq_true h2, ?_⟩
    rcases hb : skip_words.contains ((pyCapitalizeL cap).map lowCh) with _ | _
    · rfl
    · rw [hb] at h1
      exact absurd h1 (by decide)
  · rw [if_neg hc] at h
    cases h

theorem firstAccepted_exists {rs : List (Option (List Char))} {n : List Char}
    (h : firstAccepted rs = some n) :
    ∃ r ∈ rs, r.bind acceptCandidate = some n := by
  induction rs with
  | nil => simp [firstAccepted] at h
  | cons r rest ih =>
    rw [firstAccepted] at h
    rcases hb : r.bind acceptCandidate with _ | x
    · rw [hb] at h
      rcases ih h with ⟨r2, hr2, he⟩
      exact ⟨r2, List.mem_cons_of_mem _ hr2, he⟩
    · rw [hb] at h
      cases h
      exact ⟨r, List.mem_cons_self _ _, hb⟩

/-- C5.  Name extraction: the concrete checks of the claim hold (Ravi is
extracted, capitalization is applied, the stop-word fine is filtered), and
every extracted name satisfies the acceptance filter: at least two code
points and its lower-cased form off the stop-list. -/
theorem claim5_name_extraction :
    (extract_name ("My name is Ravi") = some ("Ravi"))
    ∧ (extract_name ("I am fine") = none)
    ∧ (extract_name ("my name is RAVI") = some ("Ravi"))
    ∧ (∀ (m n : List Char), extractNameL m = some n →
        2 ≤ n.length ∧ skip_words.contains (n.map lowCh) = false) := by
  refine ⟨by decide, by decide, by decide, ?_⟩
  intro m n h
  unfold extractNameL at h
  rcases firstAccepted_exists h with ⟨r, _, he⟩
  rcases Option.bind_eq_some.mp he with ⟨cap, _, hacc⟩
  exact acceptCandidate_props hacc

/-- Witness for C5: instantiating the universal part at a concrete extracted
name. -/
theorem claim5_witness :
    2 ≤ (String.data ("Bob")).length
    ∧ skip_words.contains ((String.data ("Bob")).map lowCh) = false :=
  claim5_name_extraction.2.2.2 (String.data ("my name is bob"))
    (String.data ("Bob")) (by decide)

theorem mem_insertDesc {x a : String × String} {l : List (String × String)} :
    a ∈ insertDesc x l ↔ a = x ∨ a ∈ l := by
  induction l with
  | nil => simp [insertDesc]
  | cons y ys ih =>
    rw [insertDesc]
    by_cases hk : kwLen x ≤ kwLen y
    · rw [if_pos hk]
      simp only [List.mem_cons, ih]
      tauto
    · rw [if_neg hk]
      simp only [List.mem_cons]

theorem pairwise_insertDesc {x : String × String} {l : List (String × String)}
    (hp : l.Pairwise (fun a b => kwLen b ≤ kwLen a)) :
    (insertDesc x l).Pairwise (fun a b => kwLen b ≤ kwLen a) := by
  induction l with
  | nil => simp [insertDesc]
  | cons y ys ih =>
    rw [List.pairwise_cons] at hp
    rcases hp with ⟨hy, hys⟩
    rw [insertDesc]
    by_cases hk : kwLen x ≤ kwLen y
    · rw [if_pos hk, List.pairwise_cons]
      refine ⟨?_, ih hys⟩
      intro z hz
      rcases mem_insertDesc.mp hz with hz | hz
      · subst hz
        exact hk
      · exact hy z hz
    · rw [if_neg hk, List.pairwise_cons]
      refine ⟨?_, List.pairwise_cons.mpr ⟨hy, hys⟩⟩
      intro z hz
      rcases List.mem_cons.mp hz with hz | hz
      · subst hz
        omega
      · have := hy z hz
        omega

theorem foldl_insertDesc_pairwise (l : List (String × String)) :
    ∀ acc : List (String × String),
      acc.Pairwise (fun a b => kwLen b ≤ kwLen a) →
      (l.foldl (fun a x => insertDesc x a) acc).Pairwise
        (fun a b => kwLen b ≤ kwLen a) := by
  induction l with
  | nil => intro acc h; exact h
  | cons x xs ih =>
    intro acc h
    exact ih (insertDesc x acc) (pairwise_insertDesc h)

theorem foldl_insertDesc_mem (l : List (String × String)) :
    ∀ (acc : List (String × String)) (a : String × String),
      a ∈ l.foldl (fun a x => insertDesc x a) acc ↔ a ∈ l ∨ a ∈ acc := by
  induction l with
  | nil => intro acc a; simp
  | cons x xs ih =>
    intro acc a
    rw [List.foldl_cons, ih (insertDesc x acc) a, mem_insertDesc,
      List.mem_cons]
    tauto

theorem sortByLenDesc_pairwise (l : List (String × String)) :
    (sortByLenDesc l).Pairwise (fun a b => kwLen b ≤ kwLen a) :=
  foldl_insertDesc_pairwise l [] (by simp)

theorem mem_sortByLenDesc {l : List (String × String)}
    {a : String × String} : a ∈ sortByLenDesc l ↔ a ∈ l := by
  rw [sortByLenDesc, foldl_insertDesc_mem]
  simp

theorem match_category_eq (m : List Char) (tam : Bool) :
    match_category m tam =
      (firstMatchCat (sortByLenDesc (if tam then TA_KEYWORDS else EN_KEYWORDS))
        m).getD ("default") := rfl

theorem firstMatchCat_eq_none {l : List (String × String)} {m : List Char}
    (h : ∀ p ∈ l, containsChars p.1.data m = false) :
    firstMatchCat l m = none := by
  induction l with
  | nil => rfl
  | cons p rest ih =>
    rcases p with ⟨kw, cat⟩
    rw [firstMatchCat]
    have hkw := h (kw, cat) (List.mem_cons_self _ _)
    rw [hkw]
    simp only [Bool.false_eq_true, if_false]
    exact ih (fun q hq => h q (List.mem_cons_of_mem _ hq))

theorem firstMatchCat_some {l : List (String × String)} {m : List Char}
    {cat : String}
    (hp : l.Pairwise (fun a b => kwLen b ≤ kwLen a))
    (h : firstMatchCat l m = some cat) :
    ∃ kw, (kw, cat) ∈ l ∧ containsChars kw.data m = true
      ∧ ∀ p ∈ l, kw.length < p.1.length →
          containsChars p.1.data m = false := by
  induction l with
  | nil => simp [firstMatchCat] at h
  | cons q rest ih =>
    rcases q with ⟨k0, c0⟩
    rw [List.pairwise_cons] at hp
    rcases hp with ⟨hq, hrest⟩
    rw [firstMatchCat] at h
    by_cases hc : containsChars k0.data m = true
    · rw [if_pos hc] at h
      cases h
      refine ⟨k0, List.mem_cons_self _ _, hc, ?_⟩
      intro p hp2 hlen
      rcases List.mem_cons.mp hp2 with hp2 | hp2
      · subst hp2
        have hx : k0.length < k0.length := hlen
        omega
      · have hle : p.1.length ≤ k0.length := hq p hp2
        have hx : k0.length < p.1.length := hlen
        omega
    · rw [if_neg hc] at h
      rcases ih hrest h with ⟨kw, hmem, hcon, hall⟩
      refine ⟨kw, List.mem_cons_of_mem _ hmem, hcon, ?_⟩
      intro p hp2 hlen
      rcases List.mem_cons.mp hp2 with hp2 | hp2
      · subst hp2
        rcases hb : containsChars k0.data m with _ | _
        · rfl
        · exact absurd hb hc
      · exact hall p hp2 hlen

/-- C6.  Category matching: longest keyword wins.  The concrete precedence
check of the claim holds (a message containing both the hi and the
how-are-you keywords resolves to status_check); a message matching no keyword
of the selected table resolves to default; and every non-default result is
the category of a keyword occurring in the message such that no strictly
longer keyword of the table occurs in it. -/
theorem claim6_keyword_precedence :
    (match_category (String.data ("hi how are you")) false = "status_check"
      ∧ containsChars (String.data ("hi"))
          (String.data ("hi how are you")) = true
      ∧ containsChars (String.data ("how are you"))
          (String.data ("hi how are you")) = true)
    ∧ (∀ (m : List Char) (tam : Bool),
        (∀ p ∈ (if tam then TA_KEYWORDS else EN_KEYWORDS),
          containsChars p.1.data m = false) →
        match_category m tam = "default")
    ∧ (∀ (m : List Char) (tam : Bool) (cat : String),
        match_category m tam = cat → cat ≠ "default" →
        ∃ kw, (kw, cat) ∈ (if tam then TA_KEYWORDS else EN_KEYWORDS)
          ∧ containsChars kw.data m = true
          ∧ ∀ p ∈ (if tam then TA_KEYWORDS else EN_KEYWORDS),
              kw.length < p.1.length →
              containsChars p.1.data m = false) := by
  refine ⟨⟨by decide, by decide, by decide⟩, ?_, ?_⟩
  · intro m tam hnone
    rw [match_category_eq,
      firstMatchCat_eq_none (fun p hp => hnone p (mem_sortByLenDesc.mp hp))]
    rfl
  · intro m tam cat hcat hne
    rw [match_category_eq] at hcat
    rcases hfm : firstMatchCat
        (sortByLenDesc (if tam then TA_KEYWORDS else EN_KEYWORDS)) m
      with _ | c
    · rw [hfm] at hcat
      exact absurd hcat.symm hne
    · rw [hfm] at hcat
      cases hcat
      rcases firstMatchCat_some (sortByLenDesc_pairwise _) hfm
        with ⟨kw, hmem, hcon, hall⟩
      refine ⟨kw, mem_sortByLenDesc.mp hmem, hcon, ?_⟩
      intro p hp hlen
      exact hall p (mem_sortByLenDesc.mpr hp) hlen

/-- Witness for C6: the no-match case on a concrete message, and the
longest-match case instantiated on the concrete precedence example. -/
theorem claim6_witness :
    match_category (String.data ("zzz")) false = "default"
    ∧ ∃ kw, (kw, "status_check") ∈ EN_KEYWORDS
        ∧ containsChars kw.data (String.data ("hi how are you")) = true
        ∧ ∀ p ∈ EN_KEYWORDS, kw.length < p.1.length →
            containsChars p.1.data (String.data ("hi how are you")) = false :=
  ⟨claim6_keyword_precedence.2.1 (String.data ("zzz")) false (by decide),
   claim6_keyword_precedence.2.2 (String.data ("hi how are you")) false
     ("status_check") (by decide) (by decide)⟩

theorem analyse_history_eq (h : List Turn) :
    analyse_history h =
      match maxByCount ((lastSix h).foldl scanTurn []) with
      | none => none
      | some dominant => tone_phrases.lookup dominant := rfl

theorem foldl_kw_eq (txt : List Char) :
    ∀ (kws : List (String × String)) (counts : List (String × Nat)),
      (∀ p ∈ kws, containsChars p.1.data txt = false) →
      kws.foldl
        (fun cs p => if containsChars p.1.data txt then bump cs p.2 else cs)
        counts = counts := by
  intro kws
  induction kws with
  | nil => intro counts _; rfl
  | cons p rest ih =>
    intro counts hall
    rw [List.foldl_cons, hall p (List.mem_cons_self _ _)]
    simp only [Bool.false_eq_true, if_false]
    exact ih counts (fun q hq => hall q (List.mem_cons_of_mem _ hq))

theorem scanTurn_skip (t : Turn)
    (h : t.sender ≠ some ("user") ∨ t.message = none) :
    ∀ counts, scanTurn counts t = counts := by
  intro counts
  rcases h with h | h
  · have hb : (t.sender == some ("user")) = false := by
      simpa using h
    simp [scanTurn, hb]
  · rcases t with ⟨s, msg⟩
    simp only at h
    subst h
    unfold scanTurn
    by_cases hs : (s == some ("user")) = true
    · rw [if_pos hs]
      exact foldl_kw_eq (pyLowerL (((none : Option String).getD ("")).data))
        emotional_kws counts (by decide)
    · rw [if_neg hs]

theorem scanTurn_no_kw (t : Turn)
    (h : ∀ p ∈ emotional_kws,
      containsChars p.1.data (pyLowerL ((t.message.getD ("")).data)) = false) :
    ∀ counts, scanTurn counts t = counts := by
  intro counts
  unfold scanTurn
  by_cases hs : (t.sender == some ("user")) = true
  · rw [if_pos hs]
    exact foldl_kw_eq _ emotional_kws counts h
  · rw [if_neg hs]

theorem foldl_scanTurn_filter :
    ∀ (l : List Turn) (counts : List (String × Nat)),
      l.foldl scanTurn counts = (userTurns l).foldl scanTurn counts := by
  intro l
  induction l with
  | nil => intro counts; rfl
  | cons t ts ih =>
    intro counts
    by_cases hu : (t.sender == some ("user")) = true
    · have hft : userTurns (t :: ts) = t :: userTurns ts := by
        simp [userTurns, List.filter_cons, hu]
      rw [List.foldl_cons, hft, List.foldl_cons]
      exact ih (scanTurn counts t)
    · have hft : userTurns (t :: ts) = userTurns ts := by
        simp [userTurns, List.filter_cons, hu]
      have hskip : scanTurn counts t = counts := by
        refine scanTurn_skip t (Or.inl ?_) counts
        intro he
        exact hu (by simp [he])
      rw [List.foldl_cons, hft, hskip]
      exact ih counts

theorem foldl_scanTurn_all_skip :
    ∀ (l : List Turn),
      (∀ t ∈ l, t.sender = some ("user") →
        ∀ p ∈ emotional_kws,
          containsChars p.1.data (pyLowerL ((t.message.getD ("")).data))
            = false) →
      ∀ counts, l.foldl scanTurn counts = counts := by
  intro l
  induction l with
  | nil => intro _ counts; rfl
  | cons t ts ih =>
    intro hall counts
    rw [List.foldl_cons]
    have hstep : scanTurn counts t = counts := by
      by_cases hu : t.sender = some ("user")
      · exact scanTurn_no_kw t (hall t (List.mem_cons_self _ _) hu) counts
      · exact scanTurn_skip t (Or.inl hu) counts
    rw [hstep]
    exact ih (fun q hq => hall q (List.mem_cons_of_mem _ hq)) counts

/-- C7.  History analysis: the tally reads only the user-sent entries of the
last six turns, so two histories agreeing there produce the same note; fewer
than three supplied turns yield no note; a window whose user entries contain
no emotional keyword yields no note; and a turn with a missing sender key, or
a missing message key, is skipped silently, contributing nothing to the
tally. -/
theorem claim7_history_analyzer :
    (∀ h1 h2 : List Turn, userTurns (lastSix h1) = userTurns (lastSix h2) →
        analyse_history h1 = analyse_history h2)
    ∧ (∀ h : List Turn, h.length < 3 → history_note h = none)
    ∧ (∀ h : List Turn,
        (∀ t ∈ lastSix h, t.sender = some ("user") →
          ∀ p ∈ emotional_kws,
            containsChars p.1.data (pyLowerL ((t.message.getD ("")).data))
              = false) →
        analyse_history h = none)
    ∧ (∀ (t : Turn) (counts : List (String × Nat)),
        t.sender ≠ some ("user") ∨ t.message = none →
        scanTurn counts t = counts) := by
  refine ⟨?_, ?_, ?_, ?_⟩
  · intro h1 h2 heq
    rw [analyse_history_eq, analyse_history_eq,
      foldl_scanTurn_filter (lastSix h1), foldl_scanTurn_filter (lastSix h2),
      heq]
  · intro h hlt
    unfold history_note
    rw [if_neg (by omega)]
  · intro h hall
    rw [analyse_history_eq, foldl_scanTurn_all_skip (lastSix h) hall]
    rfl
  · intro t counts h
    exact scanTurn_skip t h counts

/-- Witness for C7 at concrete inputs: a short history yields no note, a
keyword-free user turn yields no note, and malformed turns are skipped. -/
theorem claim7_witness :
    history_note [] = none
    ∧ analyse_history
        [{ sender := some ("user"), message := some ("ok") }] = none
    ∧ scanTurn [] { sender := none, message := some ("I am lonely") } = []
    ∧ scanTurn [] { sender := some ("user"), message := none } = [] :=
  ⟨claim7_history_analyzer.2.1 [] (by decide),
   claim7_history_analyzer.2.2.1
     [{ sender := some ("user"), message := some ("ok") }] (by decide),
   claim7_history_analyzer.2.2.2
     { sender := none, message := some ("I am lonely") } []
     (Or.inl (by decide)),
   claim7_history_analyzer.2.2.2
     { sender := some ("user"), message := none } [] (Or.inr rfl)⟩

/-- C8 counterexample.  The assembled response is not single-space
separated: the composer prepends a space to a follow-up string that already
begins with one, so a concrete run contains a doubled space before the
follow-up. -/
theorem claim8_counterexample :
    (generate_response ("Hello") none [] none none
        { baseChoice := 2, greetCoin := false, histCoin := false,
          followCoin := true, followChoice := 0, aiChoice := 0 }).response
      = "Hi! What a pleasure to chat with you today! Tell me more.  What else is on your mind today?"
    ∧ containsChars (String.data ("  "))
        ((generate_response ("Hello") none [] none none
          { baseChoice := 2, greetCoin := false, histCoin := false,
            followCoin := true, followChoice := 0,
            aiChoice := 0 }).response.data) = true :=
  ⟨by decide, by decide⟩

theorem response_decomp (msg : String) (u : Option String) (h : List Turn)
    (dn : Option String) (fl : Option String) (d : Draws)
    (hne : pyStripL msg.data ≠ []) :
    (generate_response msg u h dn fl d).response.data =
      (generateParts (pyStripL msg.data) u h dn fl d).pre
      ++ (generateParts (pyStripL msg.data) u h dn fl d).base
      ++ [' ']
      ++ (generateParts (pyStripL msg.data) u h dn fl d).ai
      ++ (generateParts (pyStripL msg.data) u h dn fl d).fw := by
  have he : (pyStripL msg.data).isEmpty = false := by
    rcases h' : pyStripL msg.data with _ | ⟨c, t⟩
    · exact absurd h' hne
    · rfl
  unfold generate_response
  simp only [he, Bool.false_eq_true, if_false]
  rfl

theorem fwOf_shape (b : List Char) (tam : Bool) (d : Draws) :
    fwOf b tam d = []
    ∨ ∃ s : String, (s ∈ EN_FOLLOWUPS ∨ s ∈ TA_FOLLOWUPS)
        ∧ fwOf b tam d = ' ' :: s.data
        ∧ s.data.head? = some (' ')
        ∧ (s.data.drop 1).head? ≠ some (' ') := by
  unfold fwOf
  by_cases h1 : endsQ b = true
  · rw [if_pos h1]
    exact Or.inl rfl
  · rw [if_neg h1]
    by_cases h2 : d.followCoin = true
    · rw [if_pos h2]
      have hmem : chooseStr (followupsOf tam) d.followChoice
          ∈ followupsOf tam := by
        cases tam
        · exact chooseStr_mem EN_FOLLOWUPS d.followChoice (by decide)
        · exact chooseStr_mem TA_FOLLOWUPS d.followChoice (by decide)
      refine Or.inr ⟨chooseStr (followupsOf tam) d.followChoice, ?_, rfl,
        ?_, ?_⟩
      · cases tam
        · exact Or.inl (chooseStr_mem EN_FOLLOWUPS d.followChoice (by decide))
        · exact Or.inr (chooseStr_mem TA_FOLLOWUPS d.followChoice (by decide))
      · have hall : ∀ s ∈ followupsOf tam, s.data.head? = some (' ') := by
          cases tam
          · decide
          · decide
        exact hall _ hmem
      · have hall : ∀ s ∈ followupsOf tam,
            (s.data.drop 1).head? ≠ some (' ') := by
          cases tam
          · decide
          · decide
        exact hall _ hmem
    · rw [if_neg h2]
      exact Or.inl rfl

theorem truthy_some {o : Option String} (h : truthy o = true) :
    ∃ s, o = some s := by
  cases o with
  | none => exact absurd h (by decide)
  | some s => exact ⟨s, rfl⟩

theorem analyse_history_phrase {h : List Turn} {s : String}
    (he : analyse_history h = some s) : ∃ t, (t, s) ∈ tone_phrases := by
  rw [analyse_history_eq] at he
  rcases hm : maxByCount ((lastSix h).foldl scanTurn []) with _ | dom
  · rw [hm] at he
    cases he
  · rw [hm] at he
    exact ⟨dom, lookup_mem he⟩

theorem preOf_shape (history : List Turn) (d : Draws) :
    preOf history d = []
    ∨ ∃ p : String, (∃ t, (t, p) ∈ tone_phrases)
        ∧ preOf history d = p.data
        ∧ p.data.getLast? = some (' ') := by
  unfold preOf
  by_cases hc : truthy (history_note history) = true ∧ d.histCoin = true
  · rw [if_pos hc]
    rcases truthy_some hc.1 with ⟨s, hsome⟩
    rw [hsome]
    have hs : analyse_history history = some s := by
      unfold history_note at hsome
      by_cases hl : 3 ≤ history.length
      · rwa [if_pos hl] at hsome
      · rw [if_neg hl] at hsome
        cases hsome
    rcases analyse_history_phrase hs with ⟨t, hmem⟩
    have hall : ∀ q ∈ tone_phrases, q.2.data.getLast? = some (' ') := by
      decide
    exact Or.inr ⟨s, ⟨t, hmem⟩, rfl, hall _ hmem⟩
  · rw [if_neg hc]
    exact Or.inl rfl

/-- C8 as amended.  The response of every nonempty message is exactly the
engine's preamble part, base part, one hard-coded separator space, secondary
part and follow-up part, in that order; the preamble part is empty or one of
the tone phrases, each of which carries its own trailing separator space; and
the follow-up part is empty or a space prepended to a follow-up pool string
that itself begins with one space and only one — so when a follow-up is
appended, exactly two spaces precede its text, not one. -/
theorem claim8_amended :
    ∀ (msg : String) (u : Option String) (h : List Turn) (dn : Option String)
      (fl : Option String) (d : Draws),
      pyStripL msg.data ≠ [] →
      ((generate_response msg u h dn fl d).response.data
        = (generateParts (pyStripL msg.data) u h dn fl d).pre
          ++ (generateParts (pyStripL msg.data) u h dn fl d).base
          ++ [' ']
          ++ (generateParts (pyStripL msg.data) u h dn fl d).ai
          ++ (generateParts (pyStripL msg.data) u h dn fl d).fw)
      ∧ ((generateParts (pyStripL msg.data) u h dn fl d).pre = []
          ∨ ∃ p : String, (∃ t, (t, p) ∈ tone_phrases)
              ∧ (generateParts (pyStripL msg.data) u h dn fl d).pre = p.data
              ∧ p.data.getLast? = some (' '))
      ∧ ((generateParts (pyStripL msg.data) u h dn fl d).fw = []
          ∨ ∃ s : String, (s ∈ EN_FOLLOWUPS ∨ s ∈ TA_FOLLOWUPS)
              ∧ (generateParts (pyStripL msg.data) u h dn fl d).fw
                  = ' ' :: s.data
              ∧ s.data.head? = some (' ')
              ∧ (s.data.drop 1).head? ≠ some (' ')) := by
  intro msg u h dn fl d hne
  exact ⟨response_decomp msg u h dn fl d hne, preOf_shape h d,
    fwOf_shape _ _ d⟩

/-- Witness for the amended C8 at a concrete call whose draws force a
follow-up. -/
theorem claim8_amended_witness :
    ((generate_response ("Hello") none [] none none d2).response.data
      = (generateParts (pyStripL (String.data ("Hello"))) none [] none none
          d2).pre
        ++ (generateParts (pyStripL (String.data ("Hello"))) none [] none none
            d2).base
        ++ [' ']
        ++ (generateParts (pyStripL (String.data ("Hello"))) none [] none none
            d2).ai
        ++ (generateParts (pyStripL (String.data ("Hello"))) none [] none none
            d2).fw)
    ∧ ((generateParts (pyStripL (String.data ("Hello"))) none [] none none
          d2).pre = []
        ∨ ∃ p : String, (∃ t, (t, p) ∈ tone_phrases)
            ∧ (generateParts (pyStripL (String.data ("Hello"))) none [] none
                none d2).pre = p.data
            ∧ p.data.getLast? = some (' '))
    ∧ ((generateParts (pyStripL (String.data ("Hello"))) none [] none none
          d2).fw = []
        ∨ ∃ s : String, (s ∈ EN_FOLLOWUPS ∨ s ∈ TA_FOLLOWUPS)
            ∧ (generateParts (pyStripL (String.data ("Hello"))) none [] none
                none d2).fw = ' ' :: s.data
            ∧ s.data.head? = some (' ')
            ∧ (s.data.drop 1).head? ≠ some (' ')) :=
  claim8_amended ("Hello") none [] none none d2 (by decide)

theorem braceFree_append (a b : List Char) :
    braceFree (a ++ b) = (braceFree a && braceFree b) := by
  unfold braceFree
  exact List.all_append

theorem not_contains_placeholder {l : List Char} (h : braceFree l = true) :
    containsChars placeholderL l = false := by
  rcases hb : containsChars placeholderL l with _ | _
  · rfl
  · exfalso
    have hplace : placeholderL = Char.ofNat 123 :: String.data ("name\x7d") := by
      decide
    rw [hplace] at hb
    have hmem := contains_head_mem hb
    have := List.all_eq_true.mp h _ hmem
    simp at this

theorem formatGo_succ_cons (name : List Char) (f : Nat) (c : Char)
    (r : List Char) :
    formatGo name (f + 1) (c :: r) =
      if isPrefixL placeholderL (c :: r)
      then name ++ formatGo name f (r.drop 5)
      else c :: formatGo name f r := rfl

theorem formatGo_brace :
    ∀ (fuel : Nat) (t name : List Char),
      braceFree (formatGo [] fuel t) = true → braceFree name = true →
      braceFree (formatGo name fuel t) = true := by
  intro fuel
  induction fuel with
  | zero =>
    intro t name h hn
    cases t with
    | nil => exact h
    | cons c r => exact h
  | succ f ih =>
    intro t name h hn
    cases t with
    | nil => exact h
    | cons c r =>
      rw [formatGo_succ_cons] at h ⊢
      by_cases hp : isPrefixL placeholderL (c :: r) = true
      · rw [if_pos hp] at h ⊢
        rw [List.nil_append] at h
        rw [braceFree_append, hn, Bool.true_and]
        exact ih (r.drop 5) name h hn
      · rw [if_neg hp] at h ⊢
        unfold braceFree at h ⊢
        rw [List.all_cons] at h ⊢
        rcases Bool.and_eq_true_iff.mp h with ⟨h1, h2⟩
        rw [h1, Bool.true_and]
        exact ih r name h2 hn

theorem poolGetOr_spec (tbl : List (String × List String)) (cat fb : String) :
    poolGetOr tbl cat fb = []
    ∨ (cat, poolGetOr tbl cat fb) ∈ tbl
    ∨ (fb, poolGetOr tbl cat fb) ∈ tbl := by
  unfold poolGetOr
  rcases h1 : tbl.lookup cat with _ | p
  · rcases h2 : tbl.lookup fb with _ | q
    · left
      rfl
    · right
      right
      simpa using lookup_mem h2
  · right
    left
    simpa using lookup_mem h1

theorem chooseL_braceFree {pool : List String}
    (h : ∀ s ∈ pool, braceFree s.data = true) (k : Nat) :
    braceFree (chooseL pool k) = true := by
  rcases hp : pool with _ | ⟨x, xs⟩
  · rfl
  · rw [← hp]
    exact h _ (chooseStr_mem pool k (by rw [hp]; intro hc; cases hc))

theorem table_fmt_braceFree {tbl : List (String × List String)}
    (hdec : tbl.all
      (fun cp => cp.2.all (fun s => braceFree (formatName s.data []))) = true)
    {cat : String} {pool : List String} (hmem : (cat, pool) ∈ tbl) :
    ∀ s ∈ pool, braceFree (formatName s.data []) = true := by
  intro s hs
  have h2 := List.all_eq_true.mp hdec _ hmem
  exact List.all_eq_true.mp h2 s hs

theorem pool_fmt_braceFree (tam : Bool) (cat fb : String) :
    ∀ s ∈ poolGetOr (responsesOf tam) cat fb,
      braceFree (formatName s.data []) = true := by
  have hdec : (responsesOf tam).all
      (fun cp => cp.2.all (fun s => braceFree (formatName s.data []))) = true := by
    cases tam
    · decide
    · decide
  intro s hs
  rcases poolGetOr_spec (responsesOf tam) cat fb with hnil | hmem | hmem
  · rw [hnil] at hs
    cases hs
  · exact table_fmt_braceFree hdec hmem s hs
  · exact table_fmt_braceFree hdec hmem s hs

theorem pool_plain_braceFree (tam : Bool) {cat fb : String}
    (hc1 : cat ≠ "name_received") (hc2 : cat ≠ "name_greeting")
    (hf1 : fb ≠ "name_received") (hf2 : fb ≠ "name_greeting") :
    ∀ s ∈ poolGetOr (responsesOf tam) cat fb, braceFree s.data = true := by
  have hall : (responsesOf tam).all
      (fun cp => cp.1 == "name_received" || cp.1 == "name_greeting"
        || cp.2.all (fun s => braceFree s.data)) = true := by
    cases tam
    · decide
    · decide
  have hplain : ∀ (c : String) (pool : List String),
      (c, pool) ∈ responsesOf tam → c ≠ "name_received" →
      c ≠ "name_greeting" → ∀ s ∈ pool, braceFree s.data = true := by
    intro c pool hmem hne1 hne2 s hs
    have h3 := List.all_eq_true.mp hall _ hmem
    have b1 : (c == "name_received") = false := by
      simpa using hne1
    have b2 : (c == "name_greeting") = false := by
      simpa using hne2
    rw [b1, b2] at h3
    simp only [Bool.false_or] at h3
    exact List.all_eq_true.mp h3 s hs
  intro s hs
  rcases poolGetOr_spec (responsesOf tam) cat fb with hnil | hmem | hmem
  · rw [hnil] at hs
    cases hs
  · exact hplain cat _ hmem hc1 hc2 s hs
  · exact hplain fb _ hmem hf1 hf2 s hs

theorem formatName_chooseL_braceFree (tam : Bool) (cat fb : String) (k : Nat)
    {name : List Char} (hn : braceFree name = true) :
    braceFree (formatName (chooseL (poolGetOr (responsesOf tam) cat fb) k)
      name) = true := by
  by_cases hp : poolGetOr (responsesOf tam) cat fb = []
  · rw [hp]
    rfl
  · have hmem := chooseStr_mem _ k hp
    have hfmt := pool_fmt_braceFree tam cat fb _ hmem
    exact formatGo_brace _ _ name hfmt hn

theorem firstMatchCat_mem {l : List (String × String)} {m : List Char}
    {c : String} (h : firstMatchCat l m = some c) : ∃ kw, (kw, c) ∈ l := by
  induction l with
  | nil => simp [firstMatchCat] at h
  | cons p rest ih =>
    rcases p with ⟨k0, c0⟩
    rw [firstMatchCat] at h
    by_cases hc : containsChars k0.data m = true
    · rw [if_pos hc] at h
      cases h
      exact ⟨k0, List.mem_cons_self _ _⟩
    · rw [if_neg hc] at h
      rcases ih h with ⟨kw, hm⟩
      exact ⟨kw, List.mem_cons_of_mem _ hm⟩

theorem match_category_cases (m : List Char) (tam : Bool) :
    match_category m tam = "default"
    ∨ ∃ kw, (kw, match_category m tam)
        ∈ (if tam then TA_KEYWORDS else EN_KEYWORDS) := by
  rw [match_category_eq]
  rcases hfm : firstMatchCat
      (sortByLenDesc (if tam then TA_KEYWORDS else EN_KEYWORDS)) m with _ | c
  · left
    rfl
  · right
    rcases firstMatchCat_mem hfm with ⟨kw, hm⟩
    exact ⟨kw, mem_sortByLenDesc.mp hm⟩

theorem match_category_not_name (m : List Char) (tam : Bool) :
    match_category m tam ≠ "name_received"
    ∧ match_category m tam ≠ "name_greeting" := by
  rcases match_category_cases m tam with hd | ⟨kw, hm⟩
  · rw [hd]
    exact ⟨by decide, by decide⟩
  · have hall : (if tam then TA_KEYWORDS else EN_KEYWORDS).all
        (fun p => !(p.2 == "name_received")
          && !(p.2 == "name_greeting")) = true := by
      cases tam
      · decide
      · decide
    have h2 := List.all_eq_true.mp hall _ hm
    rcases Bool.and_eq_true_iff.mp h2 with ⟨h3, h4⟩
    constructor
    · intro he
      rw [he] at h3
      simp at h3
    · intro he
      rw [he] at h4
      simp at h4

theorem categoryOf_not_name (m : List Char) (tam : Bool)
    (h : ¬(categoryOf m tam = "name_received"
      ∧ truthy (detectedOf m) = true)) :
    categoryOf m tam ≠ "name_received"
    ∧ categoryOf m tam ≠ "name_greeting" := by
  unfold categoryOf at h ⊢
  by_cases hc : match_category (pyLowerL m) tam = "name_intro_ta"
      ∧ truthy (detectedOf m) = true
  · rw [if_pos hc] at h
    exact absurd ⟨rfl, hc.2⟩ h
  · rw [if_neg hc]
    exact match_category_not_name (pyLowerL m) tam

theorem pyOr_braceFree {det dn : Option String}
    (hdet : det.all (fun s => braceFree s.data) = true)
    (hdn : dn.all (fun s => braceFree s.data) = true) :
    ∀ s, pyOr det dn = some s → braceFree s.data = true := by
  intro s hs
  unfold pyOr at hs
  by_cases ht : truthy det = true
  · rw [if_pos ht] at hs
    rw [hs] at hdet
    simpa using hdet
  · rw [if_neg ht] at hs
    rw [hs] at hdn
    simpa using hdn

theorem baseOf_braceFree (message : List Char) (dn : Option String)
    (tam : Bool) (d : Draws)
    (hdet : (detectedOf message).all (fun s => braceFree s.data) = true)
    (hdn : dn.all (fun s => braceFree s.data) = true) :
    braceFree (baseOf message dn tam d) = true := by
  simp only [baseOf]
  by_cases h1 : categoryOf message tam = "name_received"
      ∧ truthy (detectedOf message) = true
  · rw [if_pos h1]
    rcases truthy_some h1.2 with ⟨s, hsome⟩
    have hb : braceFree s.data = true := by
      rw [hsome] at hdet
      simpa using hdet
    rw [hsome]
    exact formatName_chooseL_braceFree tam _ _ d.baseChoice hb
  · rw [if_neg h1]
    by_cases h2 : categoryOf message tam = "greetings"
        ∧ truthy (pyOr (detectedOf message) dn) = true
    · rw [if_pos h2]
      by_cases hg : d.greetCoin = true
      · rw [if_pos hg]
        rcases truthy_some h2.2 with ⟨s, hsome⟩
        have hb : braceFree s.data = true :=
          pyOr_braceFree hdet hdn s hsome
        rw [hsome]
        exact formatName_chooseL_braceFree tam _ _ d.baseChoice hb
      · rw [if_neg hg]
        exact chooseL_braceFree
          (pool_plain_braceFree tam (by decide) (by decide) (by decide)
            (by decide)) d.baseChoice
    · rw [if_neg h2]
      rcases categoryOf_not_name message tam h1 with ⟨hn1, hn2⟩
      exact chooseL_braceFree
        (pool_plain_braceFree tam hn1 hn2 (by decide) (by decide)) d.baseChoice

theorem preOf_braceFree (history : List Turn) (d : Draws) :
    braceFree (preOf history d) = true := by
  unfold preOf
  by_cases hc : truthy (history_note history) = true ∧ d.histCoin = true
  · rw [if_pos hc]
    rcases truthy_some hc.1 with ⟨s, hsome⟩
    rw [hsome]
    have hs : analyse_history history = some s := by
      unfold history_note at hsome
      by_cases hl : 3 ≤ history.length
      · rwa [if_pos hl] at hsome
      · rw [if_neg hl] at hsome
        cases hsome
    rcases analyse_history_phrase hs with ⟨t, hmem⟩
    have hall : tone_phrases.all (fun p => braceFree p.2.data) = true := by
      decide
    exact List.all_eq_true.mp hall _ hmem
  · rw [if_neg hc]
    rfl

theorem get_ai_braceFree (ml : List Char) (u : Option String) (k : Nat) :
    braceFree (get_ai_response ml u k) = true := by
  unfold get_ai_response
  repeat' split
  · exact chooseL_braceFree (by decide) k
  · exact chooseL_braceFree (by decide) k
  · exact chooseL_braceFree (by decide) k
  · exact chooseL_braceFree (by decide) k
  · exact chooseL_braceFree (by decide) k
  · decide
  · exact chooseL_braceFree (by decide) k

theorem fwOf_braceFree (b : List Char) (tam : Bool) (d : Draws) :
    braceFree (fwOf b tam d) = true := by
  rcases fwOf_shape b tam d with hnil | ⟨s, hmem, heq, _, _⟩
  · rw [hnil]
    rfl
  · rw [heq]
    unfold braceFree
    rw [List.all_cons]
    have hb : braceFree s.data = true := by
      rcases hmem with hmem | hmem
      · have hall : EN_FOLLOWUPS.all (fun s => braceFree s.data) = true := by
          decide
        exact List.all_eq_true.mp hall _ hmem
      · have hall : TA_FOLLOWUPS.all (fun s => braceFree s.data) = true := by
          decide
        exact List.all_eq_true.mp hall _ hmem
    unfold braceFree at hb
    rw [hb]
    decide

/-- C10 counterexample.  The literal placeholder can survive into the
response: a Tamil self-introduction whose "name" is the text of the
placeholder itself is extracted by the nonspace capture, remapped to
name_received, and interpolated verbatim, so the returned response contains
the literal placeholder. -/
theorem claim10_counterexample :
    (generate_response ("என் பெயர் {name}") none [] none none d0).detected_name
      = some ("{name}")
    ∧ containsChars (String.data ("{name}"))
        ((generate_response ("என் பெயர் {name}") none [] none none
          d0).response.data) = true :=
  ⟨by decide, by decide⟩

/-- C10 as amended.  Template selection guarantees a name for the {name}
pools, and interpolation replaces every placeholder occurrence, so the
response never contains a literal placeholder provided the interpolated names
themselves are brace-free: whenever this turn's extracted name and the
caller-supplied display name contain no opening brace, the response contains
no placeholder (indeed no opening brace at all). -/
theorem claim10_amended :
    ∀ (msg : String) (u : Option String) (h : List Turn) (dn : Option String)
      (fl : Option String) (d : Draws),
      (detectedOf (pyStripL msg.data)).all (fun s => braceFree s.data)
        = true →
      dn.all (fun s => braceFree s.data) = true →
      containsChars (String.data ("{name}"))
        ((generate_response msg u h dn fl d).response.data) = false := by
  intro msg u h dn fl d hdet hdn
  by_cases he : (pyStripL msg.data).isEmpty = true
  · unfold generate_response
    rw [if_pos he]
    decide
  · have hne : pyStripL msg.data ≠ [] := by
      intro hc
      rw [hc] at he
      exact he rfl
    have hdec := response_decomp msg u h dn fl d hne
    rw [hdec]
    refine not_contains_placeholder ?_
    rw [braceFree_append, braceFree_append, braceFree_append,
      braceFree_append]
    have hpre : braceFree (generateParts (pyStripL msg.data) u h dn fl d).pre
        = true := preOf_braceFree h d
    have hbase : braceFree (generateParts (pyStripL msg.data) u h dn fl d).base
        = true :=
      baseOf_braceFree (pyStripL msg.data) dn
        (isTamOf (pyStripL msg.data) fl) d hdet hdn
    have hai : braceFree (generateParts (pyStripL msg.data) u h dn fl d).ai
        = true := get_ai_braceFree (pyLowerL (pyStripL msg.data)) u d.aiChoice
    have hfw : braceFree (generateParts (pyStripL msg.data) u h dn fl d).fw
        = true :=
      fwOf_braceFree (baseOf (pyStripL msg.data) dn
        (isTamOf (pyStripL msg.data) fl) d) (isTamOf (pyStripL msg.data) fl) d
    rw [hpre, hbase, hai, hfw]
    decide

/-- Witness for the amended C10 at a concrete call with brace-free names. -/
theorem claim10_amended_witness :
    containsChars (String.data ("{name}"))
      ((generate_response ("My name is Ravi") none [] (some ("Kamala")) none
        d0).response.data) = false :=
  claim10_amended ("My name is Ravi") none [] (some ("Kamala")) none d0
    (by decide) (by decide)

end Sentimate
